import Mathlib

/-!
Shallow embedding of the Spotify assistant tool layer (spotify-assistant.py).

The Python module keeps two process-wide mutable globals relevant to the
claims: user_access_token and playlist_uri.  We model them as an explicit
state record threaded through every operation.  Remote HTTP exchanges are
modelled by an Oracle record holding the parsed response bodies and status
codes the service would return; every outgoing request or other observable
side effect is recorded in an Effect trace.  The authorization flow of
get_user_access_token polls a global set by an aiohttp callback handler;
we model the timeline of arriving callback requests as a list of timed
events in the Oracle, and a run that never completes (the poll loop spins
forever) is modelled as the Option value none.  Python exceptions are
modelled with Except: an Except.error escaping a function models an
uncaught exception propagating to the caller.
-/

namespace SpotifyAssistant

/-- Fixed port required for the Spotify redirect URI (module constant PORT). -/
def PORT : Nat := 8585

/-- Module constant REDIRECT_URI. -/
def REDIRECT_URI : String := "http://localhost:8585/callback"

/-- Module constant SPOTIFY_AUTH_URL. -/
def SPOTIFY_AUTH_URL : String := "https://accounts.spotify.com/authorize"

/-- Module constant SPOTIFY_SCOPES. -/
def SPOTIFY_SCOPES : String := "playlist-modify-public playlist-modify-private user-read-playback-state user-modify-playback-state user-read-private"

/-- Authorization URL built in get_user_access_token before webbrowser.open. -/
def authUrl (clientId : String) : String :=
  SPOTIFY_AUTH_URL ++ "?response_type=code&client_id=" ++ clientId
    ++ "&scope=" ++ SPOTIFY_SCOPES ++ "&redirect_uri=http://localhost:8585/callback"

/-- The two process-wide mutable globals the claims are about. -/
structure SpotifyState where
  user_access_token : Option String
  playlist_uri : Option String
deriving Repr, DecidableEq

/-- Python exceptions that appear in the module: generic Exception raised by
the status checks, KeyError from indexing a missing JSON field, and an error
raised by the TTS call. -/
inductive PyErr where
  | exc (msg : String)
  | keyError (key : String)
  | ttsError
deriving Repr, DecidableEq

/-- The message str(e) produces for each modelled exception. -/
def PyErr.pymsg : PyErr → String
  | .exc m => m
  | .keyError k => "\x27" ++ k ++ "\x27"
  | .ttsError => "TTS failure"

/-- The uniform result dictionary returned by the three entry points.  Absent
keys are modelled as none. -/
structure FlowResult where
  success : Bool
  error : Option String := none
  premium : Option Bool := none
  access_token : Option String := none
deriving Repr, DecidableEq

/-- Observable side effects: listener lifecycle, browser opening, and each
outgoing HTTP request, with the request data the claims talk about. -/
inductive Effect where
  | listenerStart
  | listenerStop
  | browserOpen (url : String)
  | tokenExchangeCall (code : String)
  | getProfileCall
  | searchTrackCall (query : String)
  | createPlaylistCall (userId : String) (title : String) (isPublic : Bool)
  | addTracksCall (playlistId : String) (uris : List String)
  | listDevicesCall
  | startPlaybackCall (deviceId : String) (contextUri : String)
  | ttsSay (msg : String)
deriving Repr, DecidableEq

/-- A redirect request hitting the /callback route: the second at which it
arrives and the code query parameter it carries. -/
structure AuthCallback where
  time : Nat
  code : String
deriving Repr, DecidableEq

/-- Environment of remote responses.  Fields hold the parsed JSON bodies the
service answers with:
  tokenExchange maps an authorization code to the access_token field of the
    token endpoint response, none when the body lacks that field;
  searchItems is the tracks.items list (as track URIs) for a search query;
  profileStatus, profileId, profileProduct describe the GET /v1/me response
    (profileId none models a body without an id field, profileProduct models
    data.get of the product field);
  createStatus, createUri, createId describe the create-playlist response;
  addTracksStatus the add-tracks response status;
  devices the device ids of the devices list; playStatus and playBody the
    playback-start response;
  callbacks is the timeline of redirect requests reaching the listener;
  ttsOk is false when the TTS say call raises. -/
structure Oracle where
  clientId : String
  callbacks : List AuthCallback
  tokenExchange : String → Option String
  searchItems : String → List String
  profileStatus : Nat
  profileId : Option String
  profileProduct : Option String
  createStatus : Nat
  createUri : String
  createId : String
  addTracksStatus : Nat
  devices : List String
  playStatus : Nat
  playBody : String
  ttsOk : Bool

/-- Embedding of handle_callback (the nested handler in get_user_access_token):
it exchanges the code at the token endpoint; when the response has an
access_token field it stores the token in the global and answers HTTP 200,
otherwise it answers HTTP 400 and leaves the global untouched.  Returns the
HTTP status of the page served to the browser and the updated state. -/
def handle_callback (code : String) (s : SpotifyState) (o : Oracle) :
    Nat × SpotifyState :=
  match o.tokenExchange code with
  | some tok => (200, { s with user_access_token := some tok })
  | none => (400, s)

/-- Earliest callback on the timeline whose token exchange yields an access
token, with the token it stores (ties resolved in list order). -/
def firstSuccess (o : Oracle) : Option (Nat × String) :=
  o.callbacks.foldl
    (fun acc cb =>
      match o.tokenExchange cb.code with
      | none => acc
      | some tok =>
        match acc with
        | none => some (cb.time, tok)
        | some p => if cb.time < p.1 then some (cb.time, tok) else some p)
    none

/-- Token-endpoint requests issued by the callbacks arriving at or before the
given second. -/
def exchangeEffects (o : Oracle) (cutoff : Nat) : List Effect :=
  (o.callbacks.filter (fun cb => cb.time ≤ cutoff)).map
    (fun cb => Effect.tokenExchangeCall cb.code)

/-- Token-endpoint requests issued by the callbacks arriving strictly before
the given second. -/
def exchangeEffectsBefore (o : Oracle) (cutoff : Nat) : List Effect :=
  (o.callbacks.filter (fun cb => cb.time < cutoff)).map
    (fun cb => Effect.tokenExchangeCall cb.code)

/-- Embedding of get_user_access_token.  With a cached token it returns it
immediately, with no effects, at time 0.  Otherwise it starts the listener,
opens the browser on the authorization URL, sleeps 8 seconds and then polls
the global every second; the loop exits at the first check at or after the
earliest successful callback, so at second max 8 t.  The finally block stops
the listener on every exit.  When no callback ever succeeds the loop never
exits: the run is modelled as none.  Returns the token, the new state, the
effect trace and the second at which the call returns. -/
def get_user_access_token (s : SpotifyState) (o : Oracle) :
    Option (String × SpotifyState × List Effect × Nat) :=
  match s.user_access_token with
  | some tok => some (tok, s, [], 0)
  | none =>
    match firstSuccess o with
    | none => none
    | some (t, tok) =>
      some (tok, { s with user_access_token := some tok },
        [Effect.listenerStart, Effect.browserOpen (authUrl o.clientId)]
          ++ exchangeEffects o (max 8 t) ++ [Effect.listenerStop],
        max 8 t)

/-- Embedding of search_song: parses tracks.items from the search response and
returns the first item URI, or none when the list is empty.  The HTTP status
is never inspected. -/
def search_song (query : String) (token : String) (o : Oracle) :
    Option String :=
  (o.searchItems query).head?

/-- Embedding of check_premium_subscription: reads data.get of the product
field and compares it with the string premium.  The HTTP status is never
inspected. -/
def check_premium_subscription (token : String) (o : Oracle) : Bool :=
  o.profileProduct == some "premium"

/-- Embedding of get_user_id: indexes the id field of the profile body; a body
without it raises KeyError.  The HTTP status is never inspected. -/
def get_user_id (token : String) (o : Oracle) : Except PyErr String :=
  match o.profileId with
  | some i => Except.ok i
  | none => Except.error (PyErr.keyError "id")

/-- Splitting a character list on a separator, with the semantics of the
Python str.split method with an explicit separator: an empty input gives one
empty piece, and adjacent separators give empty pieces. -/
def splitChars (sep : Char) : List Char → List Char → List (List Char)
  | [], acc => [acc.reverse]
  | c :: cs, acc =>
    if c = sep then acc.reverse :: splitChars sep cs []
    else splitChars sep cs (c :: acc)

/-- Leading and trailing whitespace removal, the semantics of the Python strip
method. -/
def trimChars (cs : List Char) : List Char :=
  ((cs.dropWhile Char.isWhitespace).reverse.dropWhile Char.isWhitespace).reverse

/-- The songs list built by create_playlist: split on semicolons (character
code 59), each entry stripped. -/
def splitSongs (songs_str : String) : List String :=
  (splitChars (Char.ofNat 59) songs_str.data []).map
    (fun cs => String.mk (trimChars cs))

/-- The courtesy message create_playlist speaks before the workflow, chosen by
song count. -/
def progressMessage (n : Nat) : String :=
  if n > 50 then
    "I am creating the playlist for you now. This might take a little while."
  else if n > 20 then
    "Hang on, while I\x27m creating the playlist for you."
  else
    "Alright, one moment please."

/-- Embedding of create_playlist.  The TTS message and the credential
acquisition run before the try block: a TTS failure escapes as an uncaught
exception (Except.error), and a hanging credential acquisition makes the call
hang (none).  Inside the try: resolve the owner id, create the playlist
container (non-201 raises, caught below), store its URI in the playlist_uri
global, resolve each song and keep the resolved URIs in order, add them
(non-201 raises, caught below), then read the subscription tier; every
exception raised inside the try is caught and converted to a success-false
result. -/
def create_playlist (title : String) (songs_str : String) (s : SpotifyState)
    (o : Oracle) :
    Option (Except PyErr FlowResult × SpotifyState × List Effect) :=
  let songs := splitSongs songs_str
  let msg := progressMessage songs.length
  if o.ttsOk = false then
    some (Except.error PyErr.ttsError, s, [])
  else
    match get_user_access_token s o with
    | none => none
    | some (token, s1, effAuth, _) =>
      let effPre := Effect.ttsSay msg :: effAuth
      match get_user_id token o with
      | Except.error e =>
        some (Except.ok { success := false, error := some (PyErr.pymsg e) },
          s1, effPre ++ [Effect.getProfileCall])
      | Except.ok user_id =>
        let effCreate := effPre
          ++ [Effect.getProfileCall, Effect.createPlaylistCall user_id title false]
        if o.createStatus ≠ 201 then
          let m := "Failed to create playlist. Status code: " ++ toString o.createStatus
          some (Except.ok { success := false, error := some m }, s1, effCreate)
        else
          let s2 := { s1 with playlist_uri := some o.createUri }
          let uris := songs.filterMap (fun song => search_song song token o)
          let effAdd := effCreate ++ songs.map Effect.searchTrackCall
            ++ [Effect.addTracksCall o.createId uris]
          if o.addTracksStatus ≠ 201 then
            let m := "Failed to add songs to the playlist. Status code: "
              ++ toString o.addTracksStatus
            some (Except.ok { success := false, error := some m }, s2, effAdd)
          else
            let prem := check_premium_subscription token o
            some (Except.ok { success := true, premium := some prem },
              s2, effAdd ++ [Effect.getProfileCall])

/-- Embedding of start_playlist.  The credential acquisition runs first,
before the playlist_uri guard; with no playlist URI the function returns the
no-playlist error.  Otherwise it opens the playlist in the browser, lists the
devices (empty list returns the no-devices error), and starts playback on the
first device (non-204 raises, caught and converted to a success-false
result). -/
def start_playlist (s : SpotifyState) (o : Oracle) :
    Option (Except PyErr FlowResult × SpotifyState × List Effect) :=
  match get_user_access_token s o with
  | none => none
  | some (token, s1, effAuth, _) =>
    match s1.playlist_uri with
    | none =>
      some (Except.ok { success := false, error := some "No playlist URI found." },
        s1, effAuth)
    | some uri =>
      let effDev := effAuth ++ [Effect.browserOpen uri, Effect.listDevicesCall]
      match o.devices with
      | [] =>
        some (Except.ok { success := false, error := some "No devices found." },
          s1, effDev)
      | device_id :: _ =>
        let effPlay := effDev ++ [Effect.startPlaybackCall device_id uri]
        if o.playStatus ≠ 204 then
          let m := "Failed to start playback. Status code: "
            ++ toString o.playStatus ++ " " ++ o.playBody
          some (Except.ok { success := false, error := some m }, s1, effPlay)
        else
          some (Except.ok { success := true }, s1, effPlay)

/-- Embedding of authenticate_user: wraps get_user_access_token in
asyncio.wait_for with a 20 second timeout.  When the acquisition completes by
second 20 the result is returned; otherwise the wait is cancelled at second
20, the finally block still stops the listener, and the TimeoutError is
converted to the timed-out result.  Returns the result, the state, the effect
trace and the second at which the call returns. -/
def authenticate_user (s : SpotifyState) (o : Oracle) :
    FlowResult × SpotifyState × List Effect × Nat :=
  match get_user_access_token s o with
  | some (tok, s1, eff, t) =>
    if t ≤ 20 then
      ({ success := true, access_token := some tok }, s1, eff, t)
    else
      ({ success := false, error := some "Authentication timed out." }, s,
        [Effect.listenerStart, Effect.browserOpen (authUrl o.clientId)]
          ++ exchangeEffectsBefore o 20 ++ [Effect.listenerStop], 20)
  | none =>
    ({ success := false, error := some "Authentication timed out." }, s,
      [Effect.listenerStart, Effect.browserOpen (authUrl o.clientId)]
        ++ exchangeEffectsBefore o 20 ++ [Effect.listenerStop], 20)

/-- Requests addressed to the music service REST API (as opposed to the
account authorization endpoints, the local listener and the browser). -/
def Effect.isMusicServiceCall : Effect → Bool
  | .getProfileCall => true
  | .searchTrackCall _ => true
  | .createPlaylistCall _ _ _ => true
  | .addTracksCall _ _ => true
  | .listDevicesCall => true
  | .startPlaybackCall _ _ => true
  | _ => false

/-- Search or add-tracks requests. -/
def Effect.isSearchOrAdd : Effect → Bool
  | .searchTrackCall _ => true
  | .addTracksCall _ _ => true
  | _ => false

/-- A baseline oracle for concrete runs: empty callback timeline, every
exchange failing, a well-formed profile, successful creation and add-tracks
responses, one device, successful playback, working TTS. -/
def baseOracle : Oracle where
  clientId := "cid"
  callbacks := []
  tokenExchange := fun _ => none
  searchItems := fun _ => []
  profileStatus := 200
  profileId := some "user1"
  profileProduct := some "premium"
  createStatus := 201
  createUri := "spotify:playlist:abc"
  createId := "abc"
  addTracksStatus := 201
  devices := ["dev1"]
  playStatus := 204
  playBody := ""
  ttsOk := true

/-! Helper lemmas shared by several claims. -/

/-- With a cached credential, get_user_access_token short-circuits: the cached
token is returned at once, with no effects, at second 0. -/
theorem get_user_access_token_cached (s : SpotifyState) (o : Oracle)
    (tok : String) (h : s.user_access_token = some tok) :
    get_user_access_token s o = some (tok, s, [], 0) := by
  simp [get_user_access_token, h]

/-- Shape of every completing credential acquisition: the returned state holds
the token and keeps the playlist slot, and the effect trace holds only
listener lifecycle events, a browser opening and token-endpoint exchanges. -/
theorem get_user_access_token_effects (s : SpotifyState) (o : Oracle)
    (tok : String) (s1 : SpotifyState) (eff : List Effect) (t : Nat)
    (h : get_user_access_token s o = some (tok, s1, eff, t)) :
    s1.user_access_token = some tok
    ∧ s1.playlist_uri = s.playlist_uri
    ∧ ∀ e ∈ eff, e = Effect.listenerStart ∨ e = Effect.listenerStop
        ∨ e = Effect.browserOpen (authUrl o.clientId)
        ∨ ∃ c, e = Effect.tokenExchangeCall c := by
  cases hs : s.user_access_token with
  | some tk =>
    simp only [get_user_access_token, hs, Option.some.injEq, Prod.mk.injEq] at h
    obtain ⟨h1, h2, h3, h4⟩ := h
    subst h2; subst h3
    exact ⟨h1 ▸ hs, rfl, by simp⟩
  | none =>
    cases hf : firstSuccess o with
    | none => simp [get_user_access_token, hs, hf] at h
    | some p =>
      obtain ⟨t0, tk⟩ := p
      simp only [get_user_access_token, hs, hf, Option.some.injEq,
        Prod.mk.injEq] at h
      obtain ⟨h1, h2, h3, h4⟩ := h
      subst h2; subst h3
      refine ⟨by simp [h1], by simp, ?_⟩
      intro e he
      rcases List.mem_append.1 he with h | h
      · rcases List.mem_append.1 h with h | h
        · rcases List.mem_cons.1 h with h | h
          · exact Or.inl h
          · exact Or.inr (Or.inr (Or.inl (List.mem_singleton.1 h)))
        · rw [exchangeEffects] at h
          obtain ⟨cb, hcb, he2⟩ := List.mem_map.1 h
          exact Or.inr (Or.inr (Or.inr ⟨cb.code, he2.symm⟩))
      · exact Or.inr (Or.inl (List.mem_singleton.1 h))

/-- No effect produced by a credential acquisition is a music-service call,
a search or add-tracks call, or a create-playlist call. -/
theorem get_user_access_token_no_service_calls (s : SpotifyState) (o : Oracle)
    (tok : String) (s1 : SpotifyState) (eff : List Effect) (t : Nat)
    (h : get_user_access_token s o = some (tok, s1, eff, t)) :
    eff.filter Effect.isMusicServiceCall = []
    ∧ eff.filter Effect.isSearchOrAdd = []
    ∧ ∀ uid ti pub, Effect.createPlaylistCall uid ti pub ∉ eff := by
  obtain ⟨-, -, hmem⟩ := get_user_access_token_effects s o tok s1 eff t h
  refine ⟨List.filter_eq_nil_iff.2 ?_, List.filter_eq_nil_iff.2 ?_, ?_⟩
  · intro e he
    rcases hmem e he with h | h | h | ⟨c, h⟩ <;> subst h <;> simp [Effect.isMusicServiceCall]
  · intro e he
    rcases hmem e he with h | h | h | ⟨c, h⟩ <;> subst h <;> simp [Effect.isSearchOrAdd]
  · intro uid ti pub hmem2
    rcases hmem _ hmem2 with h | h | h | ⟨c, h⟩ <;> simp at h

/-! Claim theorems. -/

/-- An oracle whose only callback carries a code the token endpoint answers
without an access_token field. -/
def rejectedOracle : Oracle :=
  { baseOracle with callbacks := [{ time := 9, code := "badcode" }] }

/-- C1 counterexample: with no cached credential and one callback whose token
exchange lacks an access token, the handler answers HTTP 400, the global stays
unset, get_user_access_token never returns to its caller, and the wrapping
entry point returns the timed-out error at second 20 — no Rejected variant is
ever produced. -/
theorem c1_counterexample :
    handle_callback "badcode"
        { user_access_token := none, playlist_uri := none } rejectedOracle
      = (400, { user_access_token := none, playlist_uri := none })
    ∧ get_user_access_token
        { user_access_token := none, playlist_uri := none } rejectedOracle = none
    ∧ authenticate_user
        { user_access_token := none, playlist_uri := none } rejectedOracle
      = ({ success := false, error := some "Authentication timed out." },
         { user_access_token := none, playlist_uri := none },
         [Effect.listenerStart, Effect.browserOpen (authUrl "cid"),
          Effect.tokenExchangeCall "badcode", Effect.listenerStop], 20) :=
  ⟨rfl, rfl, rfl⟩

/-- C1 amended: on a token-endpoint response lacking an access token the
callback handler answers HTTP 400 and leaves the credential global unset;
when no callback on the timeline ever succeeds, get_user_access_token keeps
waiting and never returns, so the wrapping entry point returns the timed-out
error at the overall 20 second timeout. -/
theorem c1_rejected_response_keeps_waiting (s : SpotifyState) (o : Oracle)
    (code : String)
    (hs : s.user_access_token = none)
    (hx : o.tokenExchange code = none)
    (hall : firstSuccess o = none) :
    handle_callback code s o = (400, s)
    ∧ get_user_access_token s o = none
    ∧ authenticate_user s o
      = ({ success := false, error := some "Authentication timed out." }, s,
         [Effect.listenerStart, Effect.browserOpen (authUrl o.clientId)]
           ++ exchangeEffectsBefore o 20 ++ [Effect.listenerStop], 20) := by
  refine ⟨?_, ?_, ?_⟩
  · simp [handle_callback, hx]
  · simp [get_user_access_token, hs, hall]
  · simp [authenticate_user, get_user_access_token, hs, hall]

/-- C1 amended witness at the concrete rejected session. -/
theorem c1_rejected_response_keeps_waiting_witness :
    handle_callback "badcode"
        { user_access_token := none, playlist_uri := none } rejectedOracle
      = (400, { user_access_token := none, playlist_uri := none })
    ∧ get_user_access_token
        { user_access_token := none, playlist_uri := none } rejectedOracle = none
    ∧ authenticate_user
        { user_access_token := none, playlist_uri := none } rejectedOracle
      = ({ success := false, error := some "Authentication timed out." },
         { user_access_token := none, playlist_uri := none },
         [Effect.listenerStart, Effect.browserOpen (authUrl rejectedOracle.clientId)]
           ++ exchangeEffectsBefore rejectedOracle 20 ++ [Effect.listenerStop], 20) :=
  c1_rejected_response_keeps_waiting
    { user_access_token := none, playlist_uri := none } rejectedOracle
    "badcode" rfl rfl rfl

/-- An oracle answering the profile read with status 403 and an error body
(no id field, no product field). -/
def errorProfileOracle : Oracle :=
  { baseOracle with
      profileStatus := 403
      profileId := none
      profileProduct := none }

/-- C5 counterexample: on a profile response with status 403 the tier read
returns false (read as a non-premium tier) and the identity read raises
KeyError for the id field; neither yields a ServiceError carrying the status,
and both results are unchanged when the status is 200 instead. -/
theorem c5_counterexample :
    check_premium_subscription "tok1" errorProfileOracle = false
    ∧ get_user_id "tok1" errorProfileOracle
      = Except.error (PyErr.keyError "id")
    ∧ check_premium_subscription "tok1"
        { errorProfileOracle with profileStatus := 200 }
      = check_premium_subscription "tok1" errorProfileOracle
    ∧ get_user_id "tok1" { errorProfileOracle with profileStatus := 200 }
      = get_user_id "tok1" errorProfileOracle :=
  ⟨rfl, rfl, rfl, rfl⟩

/-- C5 amended: neither profile read inspects the HTTP status — each result
is invariant under changing the status — and an error body without id and
product fields is read as a KeyError on id and as a non-premium tier
respectively. -/
theorem c5_profile_status_ignored (token : String) (o : Oracle) (n : Nat)
    (hprod : o.profileProduct = none) (hid : o.profileId = none) :
    check_premium_subscription token { o with profileStatus := n }
      = check_premium_subscription token o
    ∧ get_user_id token { o with profileStatus := n } = get_user_id token o
    ∧ check_premium_subscription token o = false
    ∧ get_user_id token o = Except.error (PyErr.keyError "id") := by
  refine ⟨rfl, rfl, ?_, ?_⟩
  · simp [check_premium_subscription, hprod]
  · simp [get_user_id, hid]

/-- C5 amended witness at the concrete 403 profile response. -/
theorem c5_profile_status_ignored_witness :
    check_premium_subscription "tok1"
        { errorProfileOracle with profileStatus := 200 }
      = check_premium_subscription "tok1" errorProfileOracle
    ∧ get_user_id "tok1" { errorProfileOracle with profileStatus := 200 }
      = get_user_id "tok1" errorProfileOracle
    ∧ check_premium_subscription "tok1" errorProfileOracle = false
    ∧ get_user_id "tok1" errorProfileOracle
      = Except.error (PyErr.keyError "id") :=
  c5_profile_status_ignored "tok1" errorProfileOracle 200 rfl rfl

/-- C9: with no cached credential and an empty callback timeline,
authenticate_user returns the timed-out error at second 20 exactly — neither
earlier nor indefinitely — the state is unchanged and the trace still ends by
stopping the listener. -/
theorem c9_timeout_bound (s : SpotifyState) (o : Oracle)
    (hs : s.user_access_token = none) (hcb : o.callbacks = []) :
    authenticate_user s o
      = ({ success := false, error := some "Authentication timed out." }, s,
         [Effect.listenerStart, Effect.browserOpen (authUrl o.clientId),
          Effect.listenerStop], 20) := by
  have hf : firstSuccess o = none := by simp [firstSuccess, hcb]
  simp [authenticate_user, get_user_access_token, hs, hf,
    exchangeEffectsBefore, hcb]

/-- C9 witness at the empty timeline. -/
theorem c9_timeout_bound_witness :
    authenticate_user { user_access_token := none, playlist_uri := none }
        baseOracle
      = ({ success := false, error := some "Authentication timed out." },
         { user_access_token := none, playlist_uri := none },
         [Effect.listenerStart, Effect.browserOpen (authUrl baseOracle.clientId),
          Effect.listenerStop], 20) :=
  c9_timeout_bound { user_access_token := none, playlist_uri := none }
    baseOracle rfl rfl

/-- An oracle whose single callback at second 9 exchanges successfully for the
token tok1. -/
def goodAuthOracle : Oracle :=
  { baseOracle with
      callbacks := [{ time := 9, code := "okcode" }]
      tokenExchange := fun c => if c = "okcode" then some "tok1" else none }

/-- C6: after any authenticate_user call that returns success, the stored
state holds the credential, and a second call — under any oracle, so with any
remote behaviour — returns the cached credential immediately: the credential
acquisition short-circuits with an empty effect trace (no listener binding,
no network activity) at second 0, and the entry point reports success with
the same token. -/
theorem c6_credential_reuse (s : SpotifyState) (o o2 : Oracle)
    (res : FlowResult) (s' : SpotifyState) (eff : List Effect) (t : Nat)
    (hrun : authenticate_user s o = (res, s', eff, t))
    (hsucc : res.success = true) :
    ∃ tok, res.access_token = some tok
      ∧ get_user_access_token s' o2 = some (tok, s', [], 0)
      ∧ authenticate_user s' o2
        = ({ success := true, access_token := some tok }, s', [], 0) := by
  cases hauth : get_user_access_token s o with
  | none =>
    simp only [authenticate_user, hauth] at hrun
    obtain ⟨h1, -⟩ := Prod.mk.injEq .. ▸ hrun
    rw [← h1] at hsucc
    simp at hsucc
  | some q =>
    obtain ⟨tok, s1, eff0, t0⟩ := q
    have hshape := get_user_access_token_effects s o tok s1 eff0 t0 hauth
    by_cases hle : t0 ≤ 20
    · simp only [authenticate_user, hauth, if_pos hle, Prod.mk.injEq] at hrun
      obtain ⟨h1, h2, -, -⟩ := hrun
      subst h2
      have hcached := get_user_access_token_cached s1 o2 tok hshape.1
      refine ⟨tok, by rw [← h1], hcached, ?_⟩
      simp [authenticate_user, hcached]
    · simp only [authenticate_user, hauth, if_neg hle, Prod.mk.injEq] at hrun
      obtain ⟨h1, -, -, -⟩ := hrun
      rw [← h1] at hsucc
      simp at hsucc

/-- C6 witness: a first full authorization at second 9 succeeds, and the
second call under a fresh oracle returns the cached token with no effects. -/
theorem c6_credential_reuse_witness :
    ∃ tok,
      (({ success := true, access_token := some "tok1" } : FlowResult)).access_token
        = some tok
      ∧ get_user_access_token
          { user_access_token := some "tok1", playlist_uri := none } baseOracle
        = some (tok, { user_access_token := some "tok1", playlist_uri := none }, [], 0)
      ∧ authenticate_user
          { user_access_token := some "tok1", playlist_uri := none } baseOracle
        = ({ success := true, access_token := some tok },
           { user_access_token := some "tok1", playlist_uri := none }, [], 0) :=
  c6_credential_reuse { user_access_token := none, playlist_uri := none }
    goodAuthOracle baseOracle
    { success := true, access_token := some "tok1" }
    { user_access_token := some "tok1", playlist_uri := none }
    [Effect.listenerStart, Effect.browserOpen (authUrl "cid"),
     Effect.tokenExchangeCall "okcode", Effect.listenerStop] 9 rfl rfl

/-- C2 counterexample: with no cached credential and the playlist slot empty,
start_playlist does return the no-playlist error, but only after running the
full credential acquisition: the effect trace holds the listener binding, the
browser opening and a token-endpoint network call, so the call is not free of
network activity. -/
theorem c2_counterexample :
    start_playlist { user_access_token := none, playlist_uri := none }
        goodAuthOracle
      = some (Except.ok { success := false, error := some "No playlist URI found." },
          { user_access_token := some "tok1", playlist_uri := none },
          [Effect.listenerStart, Effect.browserOpen (authUrl "cid"),
           Effect.tokenExchangeCall "okcode", Effect.listenerStop]) := rfl

/-- C2 amended: whenever the playlist slot is empty and start_playlist
returns, it returns the structured no-playlist error and its trace holds no
music-service call; with a cached credential the trace is empty, but with no
cached credential the credential acquisition runs first and may perform
network activity. -/
theorem c2_no_playlist_guard (s : SpotifyState) (o : Oracle)
    (res : Except PyErr FlowResult) (s' : SpotifyState) (eff : List Effect)
    (hp : s.playlist_uri = none)
    (hret : start_playlist s o = some (res, s', eff)) :
    res = Except.ok { success := false, error := some "No playlist URI found." }
    ∧ eff.filter Effect.isMusicServiceCall = []
    ∧ ∀ tok, s.user_access_token = some tok → eff = [] := by
  cases hauth : get_user_access_token s o with
  | none => simp [start_playlist, hauth] at hret
  | some q =>
    obtain ⟨token, s1, effAuth, t0⟩ := q
    have hshape := get_user_access_token_effects s o token s1 effAuth t0 hauth
    have hpu : s1.playlist_uri = none := hshape.2.1.trans hp
    simp only [start_playlist, hauth, hpu, Option.some.injEq,
      Prod.mk.injEq] at hret
    obtain ⟨h1, h2, h3⟩ := hret
    subst h3
    refine ⟨h1.symm, ?_, ?_⟩
    · exact (get_user_access_token_no_service_calls s o token s1 effAuth t0 hauth).1
    · intro tok htok
      have hc := (get_user_access_token_cached s o tok htok).symm.trans hauth
      simp only [Option.some.injEq, Prod.mk.injEq] at hc
      exact hc.2.2.1.symm

/-- C2 amended witness: with a cached credential and an empty playlist slot,
the guard fires with an entirely empty effect trace. -/
theorem c2_no_playlist_guard_witness :
    (Except.ok { success := false, error := some "No playlist URI found." }
        : Except PyErr FlowResult)
      = Except.ok { success := false, error := some "No playlist URI found." }
    ∧ ([] : List Effect).filter Effect.isMusicServiceCall = []
    ∧ ∀ tok,
        ({ user_access_token := some "tok1", playlist_uri := none }
          : SpotifyState).user_access_token = some tok → ([] : List Effect) = [] :=
  c2_no_playlist_guard
    { user_access_token := some "tok1", playlist_uri := none } baseOracle
    (Except.ok { success := false, error := some "No playlist URI found." })
    { user_access_token := some "tok1", playlist_uri := none } [] rfl rfl

/-- An oracle resolving the song A to one track URI and every other query to
an empty result list. -/
def mixedSearchOracle : Oracle :=
  { baseOracle with
      searchItems := fun q => if q = "A" then ["spotify:track:uA"] else [] }

/-- C7: with a cached credential, a resolvable owner id and 201 responses to
creation and add-tracks, create_playlist succeeds for every song list and the
add-tracks request carries exactly the URIs of the entries the search
resolves, in list order with duplicates kept; unresolved entries are dropped
by the filterMap and raise nothing. -/
theorem c7_unresolved_tolerance (title songs_str tok uid : String)
    (s : SpotifyState) (o : Oracle)
    (hs : s.user_access_token = some tok)
    (ht : o.ttsOk = true)
    (hid : o.profileId = some uid)
    (hc : o.createStatus = 201)
    (ha : o.addTracksStatus = 201) :
    create_playlist title songs_str s o
      = some (Except.ok
          { success := true
            premium := some (check_premium_subscription tok o) },
          { s with playlist_uri := some o.createUri },
          Effect.ttsSay (progressMessage (splitSongs songs_str).length)
            :: [Effect.getProfileCall, Effect.createPlaylistCall uid title false]
            ++ (splitSongs songs_str).map Effect.searchTrackCall
            ++ [Effect.addTracksCall o.createId
                  ((splitSongs songs_str).filterMap
                    (fun song => search_song song tok o)),
                Effect.getProfileCall]) := by
  simp [create_playlist, get_user_access_token, get_user_id, hs, ht, hid,
    hc, ha]

/-- C7 witness: of the songs A, Xyzzy, A only the two copies of A resolve;
the playlist is created successfully and the add-tracks request carries the
two resolved URIs in order. -/
theorem c7_unresolved_tolerance_witness :
    create_playlist "Mix" "A; Xyzzy; A"
        { user_access_token := some "tok1", playlist_uri := none }
        mixedSearchOracle
      = some (Except.ok { success := true, premium := some true },
          { user_access_token := some "tok1",
            playlist_uri := some "spotify:playlist:abc" },
          [Effect.ttsSay "Alright, one moment please.",
           Effect.getProfileCall,
           Effect.createPlaylistCall "user1" "Mix" false,
           Effect.searchTrackCall "A", Effect.searchTrackCall "Xyzzy",
           Effect.searchTrackCall "A",
           Effect.addTracksCall "abc" ["spotify:track:uA", "spotify:track:uA"],
           Effect.getProfileCall]) :=
  c7_unresolved_tolerance "Mix" "A; Xyzzy; A" "tok1" "user1"
    { user_access_token := some "tok1", playlist_uri := none }
    mixedSearchOracle rfl rfl rfl rfl rfl

/-- C8: whenever the container creation answers with a status other than 201,
create_playlist returns the success-false result with the creation failure
message, the state is exactly the state after credential acquisition — so the
playlist slot is unchanged — and the effect trace, spelled out in full, holds
no search and no add-tracks call. -/
theorem c8_creation_failure_isolation (title songs_str : String)
    (s : SpotifyState) (o : Oracle) (tok : String) (s1 : SpotifyState)
    (effAuth : List Effect) (t : Nat) (uid : String)
    (ht : o.ttsOk = true)
    (hauth : get_user_access_token s o = some (tok, s1, effAuth, t))
    (hid : o.profileId = some uid)
    (hc : o.createStatus ≠ 201) :
    create_playlist title songs_str s o
      = some (Except.ok
          { success := false
            error := some ("Failed to create playlist. Status code: "
              ++ toString o.createStatus) },
          s1,
          Effect.ttsSay (progressMessage (splitSongs songs_str).length)
            :: effAuth
            ++ [Effect.getProfileCall, Effect.createPlaylistCall uid title false])
    ∧ s1.playlist_uri = s.playlist_uri
    ∧ (Effect.ttsSay (progressMessage (splitSongs songs_str).length)
        :: effAuth
        ++ [Effect.getProfileCall,
            Effect.createPlaylistCall uid title false]).filter
        Effect.isSearchOrAdd = [] := by
  refine ⟨?_, (get_user_access_token_effects s o tok s1 effAuth t hauth).2.1, ?_⟩
  · simp [create_playlist, get_user_id, ht, hauth, hid, hc]
  · have hfa :=
      (get_user_access_token_no_service_calls s o tok s1 effAuth t hauth).2.1
    simp [List.filter_append, hfa, Effect.isSearchOrAdd]

/-- An oracle whose container-creation call answers status 500. -/
def createFailOracle : Oracle :=
  { baseOracle with createStatus := 500 }

/-- C8 witness at a concrete 500 creation response with a cached credential. -/
theorem c8_creation_failure_isolation_witness :
    create_playlist "Mix" "A; B"
        { user_access_token := some "tok1", playlist_uri := none }
        createFailOracle
      = some (Except.ok
          { success := false
            error := some "Failed to create playlist. Status code: 500" },
          { user_access_token := some "tok1", playlist_uri := none },
          [Effect.ttsSay "Alright, one moment please.",
           Effect.getProfileCall,
           Effect.createPlaylistCall "user1" "Mix" false])
    ∧ ({ user_access_token := some "tok1", playlist_uri := none }
        : SpotifyState).playlist_uri
      = ({ user_access_token := some "tok1", playlist_uri := none }
        : SpotifyState).playlist_uri
    ∧ ([Effect.ttsSay "Alright, one moment please.",
        Effect.getProfileCall,
        Effect.createPlaylistCall "user1" "Mix" false]).filter
        Effect.isSearchOrAdd = [] :=
  c8_creation_failure_isolation "Mix" "A; B"
    { user_access_token := some "tok1", playlist_uri := none }
    createFailOracle "tok1"
    { user_access_token := some "tok1", playlist_uri := none } [] 0 "user1"
    rfl rfl rfl (by decide)

/-- An oracle resolving every search to one track but answering the add-tracks
call with status 403. -/
def addFailOracle : Oracle :=
  { baseOracle with
      addTracksStatus := 403
      searchItems := fun _ => ["spotify:track:t1"] }

/-- C4 counterexample: a create_playlist run whose add-tracks call fails with
status 403 returns success false, yet leaves the playlist slot set to the URI
of the freshly created container — a state in which no create_playlist call
has returned success but the slot is non-empty, ready for start_playlist to
target. -/
theorem c4_counterexample :
    create_playlist "Mix" "A; B"
        { user_access_token := some "tok1", playlist_uri := none } addFailOracle
      = some (Except.ok
          { success := false
            error := some "Failed to add songs to the playlist. Status code: 403" },
          { user_access_token := some "tok1",
            playlist_uri := some "spotify:playlist:abc" },
          [Effect.ttsSay "Alright, one moment please.",
           Effect.getProfileCall, Effect.createPlaylistCall "user1" "Mix" false,
           Effect.searchTrackCall "A", Effect.searchTrackCall "B",
           Effect.addTracksCall "abc"
             ["spotify:track:t1", "spotify:track:t1"]]) := rfl

/-- C4 amended: the playlist slot is updated exactly when the container
creation answers 201 — in that case it holds the new container URI even when
the overall call later fails — and is preserved on every other path. -/
theorem c4_playlist_slot_update (title songs_str : String) (s : SpotifyState)
    (o : Oracle) (res : Except PyErr FlowResult) (s' : SpotifyState)
    (eff : List Effect)
    (hret : create_playlist title songs_str s o = some (res, s', eff)) :
    s'.playlist_uri = s.playlist_uri
    ∨ (o.createStatus = 201 ∧ s'.playlist_uri = some o.createUri) := by
  simp only [create_playlist] at hret
  split at hret
  · simp only [Option.some.injEq, Prod.mk.injEq] at hret
    exact Or.inl (by rw [← hret.2.1])
  · split at hret
    · exact absurd hret (by simp)
    · rename_i token s1 effAuth t0 heq
      have hsh := get_user_access_token_effects s o token s1 effAuth t0 heq
      split at hret
      · simp only [Option.some.injEq, Prod.mk.injEq] at hret
        exact Or.inl (by rw [← hret.2.1]; exact hsh.2.1)
      · split at hret
        · simp only [Option.some.injEq, Prod.mk.injEq] at hret
          exact Or.inl (by rw [← hret.2.1]; exact hsh.2.1)
        · rename_i hcc
          rw [Decidable.not_not] at hcc
          split at hret
          · simp only [Option.some.injEq, Prod.mk.injEq] at hret
            exact Or.inr ⟨hcc, by rw [← hret.2.1]⟩
          · simp only [Option.some.injEq, Prod.mk.injEq] at hret
            exact Or.inr ⟨hcc, by rw [← hret.2.1]⟩

/-- C4 amended witness at the concrete failing add-tracks run. -/
theorem c4_playlist_slot_update_witness :
    ({ user_access_token := some "tok1",
        playlist_uri := some "spotify:playlist:abc" } : SpotifyState).playlist_uri
      = ({ user_access_token := some "tok1", playlist_uri := none }
          : SpotifyState).playlist_uri
    ∨ (addFailOracle.createStatus = 201
        ∧ ((⟨some "tok1", some "spotify:playlist:abc"⟩
            : SpotifyState)).playlist_uri = some addFailOracle.createUri) :=
  c4_playlist_slot_update "Mix" "A; B"
    { user_access_token := some "tok1", playlist_uri := none } addFailOracle
    (Except.ok
      { success := false
        error := some "Failed to add songs to the playlist. Status code: 403" })
    { user_access_token := some "tok1",
      playlist_uri := some "spotify:playlist:abc" }
    [Effect.ttsSay "Alright, one moment please.",
     Effect.getProfileCall, Effect.createPlaylistCall "user1" "Mix" false,
     Effect.searchTrackCall "A", Effect.searchTrackCall "B",
     Effect.addTracksCall "abc" ["spotify:track:t1", "spotify:track:t1"]] rfl

/-- With a working TTS call, every completed create_playlist run returns a
result value: every exception raised inside the try block is caught. -/
theorem create_playlist_no_escape (title songs_str : String) (s : SpotifyState)
    (o : Oracle) (res : Except PyErr FlowResult) (s' : SpotifyState)
    (eff : List Effect)
    (ht : o.ttsOk = true)
    (hret : create_playlist title songs_str s o = some (res, s', eff)) :
    ∃ r, res = Except.ok r := by
  simp only [create_playlist, ht] at hret
  split at hret
  · rename_i hfalse; simp at hfalse
  · split at hret
    · exact absurd hret (by simp)
    · split at hret
      · simp only [Option.some.injEq, Prod.mk.injEq] at hret
        exact ⟨_, hret.1.symm⟩
      · split at hret
        · simp only [Option.some.injEq, Prod.mk.injEq] at hret
          exact ⟨_, hret.1.symm⟩
        · split at hret
          · simp only [Option.some.injEq, Prod.mk.injEq] at hret
            exact ⟨_, hret.1.symm⟩
          · simp only [Option.some.injEq, Prod.mk.injEq] at hret
            exact ⟨_, hret.1.symm⟩

/-- Every completed start_playlist run returns a result value: every
exception raised inside its try block is caught. -/
theorem start_playlist_no_escape (s : SpotifyState) (o : Oracle)
    (res : Except PyErr FlowResult) (s' : SpotifyState) (eff : List Effect)
    (hret : start_playlist s o = some (res, s', eff)) :
    ∃ r, res = Except.ok r := by
  simp only [start_playlist] at hret
  split at hret
  · exact absurd hret (by simp)
  · split at hret
    · simp only [Option.some.injEq, Prod.mk.injEq] at hret
      exact ⟨_, hret.1.symm⟩
    · split at hret
      · simp only [Option.some.injEq, Prod.mk.injEq] at hret
        exact ⟨_, hret.1.symm⟩
      · split at hret
        · simp only [Option.some.injEq, Prod.mk.injEq] at hret
          exact ⟨_, hret.1.symm⟩
        · simp only [Option.some.injEq, Prod.mk.injEq] at hret
          exact ⟨_, hret.1.symm⟩

/-- C3 counterexample: when the pre-workflow TTS progress call raises, the
exception escapes create_playlist uncaught (an Except.error leaves the entry
point) instead of being converted to a success-false result — the progress
message and the credential acquisition run before the try block. -/
theorem c3_counterexample :
    create_playlist "My Mix" "Song A; Song B"
        { user_access_token := some "tok1", playlist_uri := none }
        { baseOracle with ttsOk := false }
      = some (Except.error PyErr.ttsError,
          { user_access_token := some "tok1", playlist_uri := none }, []) := rfl

/-- C3 amended: the try blocks of create_playlist and start_playlist convert
every error raised inside them — after the progress message and the
credential acquisition — into an ordinary result value; a failure of the
pre-workflow TTS call, which runs before the try, escapes instead. -/
theorem c3_entry_point_catch_boundary (title songs_str : String)
    (s s2 : SpotifyState) (o o2 : Oracle)
    (res res2 : Except PyErr FlowResult) (s' s2' : SpotifyState)
    (eff eff2 : List Effect)
    (ht : o.ttsOk = true)
    (h1 : create_playlist title songs_str s o = some (res, s', eff))
    (h2 : start_playlist s2 o2 = some (res2, s2', eff2)) :
    (∃ r, res = Except.ok r) ∧ (∃ r, res2 = Except.ok r) :=
  ⟨create_playlist_no_escape title songs_str s o res s' eff ht h1,
   start_playlist_no_escape s2 o2 res2 s2' eff2 h2⟩

/-- C3 amended witness at a concrete successful create run and a concrete
no-playlist start run. -/
theorem c3_entry_point_catch_boundary_witness :
    (∃ r, (Except.ok { success := true, premium := some true }
        : Except PyErr FlowResult) = Except.ok r)
    ∧ (∃ r, (Except.ok { success := false, error := some "No playlist URI found." }
        : Except PyErr FlowResult) = Except.ok r) :=
  c3_entry_point_catch_boundary "Mix" "A; Xyzzy; A"
    { user_access_token := some "tok1", playlist_uri := none }
    { user_access_token := some "tok1", playlist_uri := none }
    mixedSearchOracle baseOracle
    (Except.ok { success := true, premium := some true })
    (Except.ok { success := false, error := some "No playlist URI found." })
    { user_access_token := some "tok1",
      playlist_uri := some "spotify:playlist:abc" }
    { user_access_token := some "tok1", playlist_uri := none }
    [Effect.ttsSay "Alright, one moment please.",
     Effect.getProfileCall,
     Effect.createPlaylistCall "user1" "Mix" false,
     Effect.searchTrackCall "A", Effect.searchTrackCall "Xyzzy",
     Effect.searchTrackCall "A",
     Effect.addTracksCall "abc" ["spotify:track:uA", "spotify:track:uA"],
     Effect.getProfileCall]
    [] rfl rfl rfl

/-- C10: every create-playlist container request issued by any create_playlist
run carries isPublic false — the request body always asks for a private
playlist, for every title, song list, state and oracle. -/
theorem c10_playlist_created_private (title songs_str : String)
    (s : SpotifyState) (o : Oracle) (res : Except PyErr FlowResult)
    (s' : SpotifyState) (eff : List Effect) (uid ptitle : String) (pub : Bool)
    (hret : create_playlist title songs_str s o = some (res, s', eff))
    (hmem : Effect.createPlaylistCall uid ptitle pub ∈ eff) :
    pub = false := by
  simp only [create_playlist] at hret
  split at hret
  · simp only [Option.some.injEq, Prod.mk.injEq] at hret
    rw [← hret.2.2] at hmem
    simp at hmem
  · split at hret
    · exact absurd hret (by simp)
    · rename_i token s1 effAuth t0 heq
      have hno :=
        (get_user_access_token_no_service_calls s o token s1 effAuth t0 heq).2.2
      split at hret
      · simp only [Option.some.injEq, Prod.mk.injEq] at hret
        rw [← hret.2.2] at hmem
        simp at hmem
        exact absurd hmem (hno _ _ _)
      · split at hret
        · simp only [Option.some.injEq, Prod.mk.injEq] at hret
          rw [← hret.2.2] at hmem
          simp at hmem
          rcases hmem with h | h
          · exact absurd h (hno _ _ _)
          · exact h.2.2
        · split at hret
          · simp only [Option.some.injEq, Prod.mk.injEq] at hret
            rw [← hret.2.2] at hmem
            simp at hmem
            rcases hmem with h | h
            · exact absurd h (hno _ _ _)
            · exact h.2.2
          · simp only [Option.some.injEq, Prod.mk.injEq] at hret
            rw [← hret.2.2] at hmem
            simp at hmem
            rcases hmem with h | h
            · exact absurd h (hno _ _ _)
            · exact h.2.2

/-- C10 witness: the concrete successful run issues exactly one container
request, and it is private. -/
theorem c10_playlist_created_private_witness :
    create_playlist "Mix" "A; Xyzzy; A"
        { user_access_token := some "tok1", playlist_uri := none }
        mixedSearchOracle
      = some (Except.ok { success := true, premium := some true },
          { user_access_token := some "tok1",
            playlist_uri := some "spotify:playlist:abc" },
          [Effect.ttsSay "Alright, one moment please.",
           Effect.getProfileCall,
           Effect.createPlaylistCall "user1" "Mix" false,
           Effect.searchTrackCall "A", Effect.searchTrackCall "Xyzzy",
           Effect.searchTrackCall "A",
           Effect.addTracksCall "abc" ["spotify:track:uA", "spotify:track:uA"],
           Effect.getProfileCall])
    ∧ false = false :=
  ⟨rfl,
   c10_playlist_created_private "Mix" "A; Xyzzy; A"
    { user_access_token := some "tok1", playlist_uri := none }
    mixedSearchOracle
    (Except.ok { success := true, premium := some true })
    { user_access_token := some "tok1",
      playlist_uri := some "spotify:playlist:abc" }
    [Effect.ttsSay "Alright, one moment please.",
     Effect.getProfileCall,
     Effect.createPlaylistCall "user1" "Mix" false,
     Effect.searchTrackCall "A", Effect.searchTrackCall "Xyzzy",
     Effect.searchTrackCall "A",
     Effect.addTracksCall "abc" ["spotify:track:uA", "spotify:track:uA"],
     Effect.getProfileCall]
    "user1" "Mix" false rfl (by decide)⟩

end SpotifyAssistant
